import Mathlib

/-!
Shallow embedding of `src/script.py`: the Software Heritage graph
reindexing orchestrator.

The script's `reindex` command (lines 77-122) inspects the filesystem and
conditionally launches three external generator processes:

* Step A (lines 92-97): if `ef or not exists(f"{graph}.ef")`, run
  `Rust("swh-graph-index", "ef", graph, conf)`.  The transposed-graph call
  (line 97) is commented out in the source and therefore absent here.
* Step B (lines 99-114): if `ef or not exists(f"{graph}-labelled.ef")`,
  read `f"{graph}.nodes.count.txt"`, strip it, and run
  `Rust("swh-graph-index", "labels-ef", f"{graph}-labelled", node_count, conf)`.
* Step C (lines 117-122): if `force or not exists(f"{graph}.node2type.bin")`,
  log, unlink a pre-existing `node2type.bin`, and run
  `Rust("swh-graph-node2type", graph, conf)`.

The filesystem is modelled as a snapshot `FS` of the four paths the script
probes; external generators are a black-box success predicate
`gen : Invocation → Bool`; observable behaviour is an event trace plus an
optional first error (`RunResult`).  A generator invocation appears in the
trace even when the process fails (the process is spawned, then its failure
propagates), mirroring `Rust(...).run()` raising after execution.
-/

/-- The three external generator invocations the script can issue
(`script.py` lines 96, 108-114, 122).  The node count of `labelsEf` is the
opaque string forwarded from the sidecar file. -/
inductive Invocation where
  | indexEf (target : String)
  | labelsEf (target : String) (nodeCount : String)
  | node2type (target : String)
  deriving DecidableEq

/-- Observable filesystem / process events of one orchestrator run. -/
inductive Event where
  | log (msg : String)
  | readSidecar (path : String)
  | unlink (path : String)
  | run (inv : Invocation) (profile : String)
  deriving DecidableEq

/-- Errors that abort the run: the sidecar `open` failing
(Python `FileNotFoundError` / unreadable file, spec's DataUnavailableError)
and an external generator exiting abnormally (spec's GenerationFailure). -/
inductive OrchError where
  | dataUnavailable (path : String)
  | generationFailure (inv : Invocation)
  deriving DecidableEq

/-- Snapshot of the filesystem at the paths `reindex` probes for a given
prefix: existence of `<prefix>.ef`, `<prefix>-labelled.ef`,
`<prefix>.node2type.bin`, and the contents of `<prefix>.nodes.count.txt`
(`none` when missing or unreadable). -/
structure FS where
  efExists : Bool
  labelledEfExists : Bool
  nodesCount : Option String
  node2typeExists : Bool
  deriving DecidableEq

/-- Outcome of a run: the ordered trace of events that happened, and the
first error if the run aborted (`none` on success). -/
structure RunResult where
  trace : List Event
  error : Option OrchError
  deriving DecidableEq

/-- Python sequential composition with exception propagation: if the first
block raised, the second never executes. -/
def andThenRun (r : RunResult) (next : Unit → RunResult) : RunResult :=
  match r.error with
  | some _ => r
  | none =>
    let r2 := next ()
    ⟨r.trace ++ r2.trace, r2.error⟩

/-- `Rust(...).run()`: the preceding events happen, the process is spawned
(it appears in the trace), and a non-zero exit propagates as an error. -/
def runGenerator (gen : Invocation → Bool) (evs : List Event) (inv : Invocation)
    (profile : String) : RunResult :=
  ⟨evs ++ [Event.run inv profile],
    if gen inv then none else some (OrchError.generationFailure inv)⟩

/-- Step A, `script.py` lines 92-97: forward EF index.  Line 97
(`graph`-transposed) is commented out in the source. -/
def stepA (gen : Invocation → Bool) (ef : Bool) (graph profile : String)
    (fs : FS) : RunResult :=
  if ef || !fs.efExists then
    runGenerator gen [Event.log "Recreating Elias-Fano indexes on adjacency lists"]
      (Invocation.indexEf graph) profile
  else ⟨[], none⟩

/-- Python `str.strip()` with no argument: remove leading and trailing
whitespace characters, leaving the interior untouched. -/
def pyStrip (s : String) : String :=
  ⟨((s.data.dropWhile Char.isWhitespace).reverse.dropWhile Char.isWhitespace).reverse⟩

/-- Step B, `script.py` lines 99-114: labelled EF index.  The sidecar is
opened before anything else in the block; `pyStrip` embeds Python's
`str.strip()`. -/
def stepB (gen : Invocation → Bool) (ef : Bool) (graph profile : String)
    (fs : FS) : RunResult :=
  if ef || !fs.labelledEfExists then
    match fs.nodesCount with
    | none => ⟨[], some (OrchError.dataUnavailable (graph ++ ".nodes.count.txt"))⟩
    | some contents =>
      runGenerator gen
        [Event.readSidecar (graph ++ ".nodes.count.txt"),
         Event.log "Recreating Elias-Fano indexes on arc labels"]
        (Invocation.labelsEf (graph ++ "-labelled") (pyStrip contents)) profile
  else ⟨[], none⟩

/-- Step C, `script.py` lines 117-122: node-type map.  Gated on `force` (not
the effective `ef`); logs, unlinks a pre-existing file, then runs. -/
def stepC (gen : Invocation → Bool) (force : Bool) (graph profile : String)
    (fs : FS) : RunResult :=
  if force || !fs.node2typeExists then
    runGenerator gen
      ([Event.log "Creating node2type.bin"] ++
        (if fs.node2typeExists then [Event.unlink (graph ++ ".node2type.bin")] else []))
      (Invocation.node2type graph) profile
  else ⟨[], none⟩

/-- `script.py` line 87: `ef = ef or force`. -/
def effectiveEf (ef force : Bool) : Bool := ef || force

/-- `script.py` lines 89-90: `if "profile" not in conf: conf["profile"] = "release"`. -/
def resolveProfile (profile : Option String) : String := profile.getD "release"

/-- The `reindex` command body (`script.py` lines 77-122), given the
black-box generator behaviour, the two flags, the GRAPH prefix argument, the
configuration's profile entry (if any), and the filesystem snapshot. -/
def reindex (gen : Invocation → Bool) (force ef : Bool) (graph : String)
    (profile : Option String) (fs : FS) : RunResult :=
  let efR := effectiveEf ef force
  let prof := resolveProfile profile
  andThenRun (stepA gen efR graph prof fs) (fun _ =>
    andThenRun (stepB gen efR graph prof fs) (fun _ =>
      stepC gen force graph prof fs))

/-- The configuration object as `graph_cli_group` sees it after
`config.read(config_file, DEFAULT_CONFIG)` (external collaborator): whether
the top-level "graph" stanza is present, and any `profile` entry. -/
structure Conf where
  hasGraphStanza : Bool
  profile : Option String
  deriving DecidableEq

/-- Error raised by the CLI group before any command runs. -/
inductive CliError where
  | configurationError (msg : String)
  deriving DecidableEq

/-- `graph_cli_group` (`script.py` lines 45-58): raise `ValueError` when the
"graph" stanza is missing, else store the config, overriding its profile with
the `--profile` option when given. -/
def graph_cli_group (configFile : String) (conf : Conf)
    (profileOpt : Option String) : Except CliError Conf :=
  if !conf.hasGraphStanza then
    Except.error (CliError.configurationError
      ("no \"graph\" stanza found in configuration file " ++ configFile))
  else
    Except.ok { conf with
      profile := match profileOpt with
        | some p => some p
        | none => conf.profile }

/-- The whole CLI path to the `reindex` command: the group callback runs
first (it can abort with a configuration error before the command body ever
inspects the filesystem), then the command body. -/
def runCli (configFile : String) (conf : Conf) (profileOpt : Option String)
    (gen : Invocation → Bool) (force ef : Bool) (graph : String) (fs : FS) :
    Except CliError RunResult :=
  match graph_cli_group configFile conf profileOpt with
  | Except.error e => Except.error e
  | Except.ok c => Except.ok (reindex gen force ef graph c.profile fs)

/-- Which of the three steps an event belongs to (0 = Step A, 1 = Step B,
2 = Step C); used to state the sequential-ordering property. -/
def eventStep : Event → Nat
  | Event.run (Invocation.indexEf _) _ => 0
  | Event.run (Invocation.labelsEf _ _) _ => 1
  | Event.run (Invocation.node2type _) _ => 2
  | Event.readSidecar _ => 1
  | Event.unlink _ => 2
  | Event.log m =>
    if m = "Recreating Elias-Fano indexes on adjacency lists" then 0
    else if m = "Recreating Elias-Fano indexes on arc labels" then 1
    else 2

/-! ### Shape lemmas about the individual steps -/

theorem stepA_cases (gen : Invocation → Bool) (ef : Bool) (graph profile : String)
    (fs : FS) :
    stepA gen ef graph profile fs = ⟨[], none⟩ ∨
    stepA gen ef graph profile fs =
      ⟨[Event.log "Recreating Elias-Fano indexes on adjacency lists",
        Event.run (Invocation.indexEf graph) profile],
       if gen (Invocation.indexEf graph) then none
       else some (OrchError.generationFailure (Invocation.indexEf graph))⟩ := by
  unfold stepA runGenerator
  cases hb : (ef || !fs.efExists) <;> simp

theorem stepB_cases (gen : Invocation → Bool) (ef : Bool) (graph profile : String)
    (fs : FS) :
    stepB gen ef graph profile fs = ⟨[], none⟩ ∨
    stepB gen ef graph profile fs =
      ⟨[], some (OrchError.dataUnavailable (graph ++ ".nodes.count.txt"))⟩ ∨
    ∃ contents, fs.nodesCount = some contents ∧
      stepB gen ef graph profile fs =
        ⟨[Event.readSidecar (graph ++ ".nodes.count.txt"),
          Event.log "Recreating Elias-Fano indexes on arc labels",
          Event.run (Invocation.labelsEf (graph ++ "-labelled") (pyStrip contents)) profile],
         if gen (Invocation.labelsEf (graph ++ "-labelled") (pyStrip contents)) then none
         else some (OrchError.generationFailure
            (Invocation.labelsEf (graph ++ "-labelled") (pyStrip contents)))⟩ := by
  unfold stepB runGenerator
  cases hb : (ef || !fs.labelledEfExists)
  · simp
  · cases hc : fs.nodesCount <;> simp

theorem stepC_cases (gen : Invocation → Bool) (force : Bool) (graph profile : String)
    (fs : FS) :
    stepC gen force graph profile fs = ⟨[], none⟩ ∨
    stepC gen force graph profile fs =
      ⟨[Event.log "Creating node2type.bin"] ++
        (if fs.node2typeExists then [Event.unlink (graph ++ ".node2type.bin")] else []) ++
        [Event.run (Invocation.node2type graph) profile],
       if gen (Invocation.node2type graph) then none
       else some (OrchError.generationFailure (Invocation.node2type graph))⟩ := by
  unfold stepC runGenerator
  cases hb : (force || !fs.node2typeExists) <;> simp

theorem stepA_skip (gen : Invocation → Bool) (ef : Bool) (graph profile : String)
    (fs : FS) (h : (ef || !fs.efExists) = false) :
    stepA gen ef graph profile fs = ⟨[], none⟩ := by
  unfold stepA; simp [h]

theorem stepB_skip (gen : Invocation → Bool) (ef : Bool) (graph profile : String)
    (fs : FS) (h : (ef || !fs.labelledEfExists) = false) :
    stepB gen ef graph profile fs = ⟨[], none⟩ := by
  unfold stepB; simp [h]

theorem stepC_skip (gen : Invocation → Bool) (force : Bool) (graph profile : String)
    (fs : FS) (h : (force || !fs.node2typeExists) = false) :
    stepC gen force graph profile fs = ⟨[], none⟩ := by
  unfold stepC; simp [h]

theorem stepB_sidecar_missing (gen : Invocation → Bool) (ef : Bool)
    (graph profile : String) (fs : FS) (hb : (ef || !fs.labelledEfExists) = true)
    (hc : fs.nodesCount = none) :
    stepB gen ef graph profile fs =
      ⟨[], some (OrchError.dataUnavailable (graph ++ ".nodes.count.txt"))⟩ := by
  unfold stepB; simp [hb, hc]

/-! ### Decomposition of a full run -/

theorem reindex_eq (gen : Invocation → Bool) (force ef : Bool) (graph : String)
    (profile : Option String) (fs : FS) :
    reindex gen force ef graph profile fs =
      andThenRun (stepA gen (effectiveEf ef force) graph (resolveProfile profile) fs)
        (fun _ =>
          andThenRun (stepB gen (effectiveEf ef force) graph (resolveProfile profile) fs)
            (fun _ => stepC gen force graph (resolveProfile profile) fs)) := rfl

theorem andThenRun_some {r : RunResult} {e : OrchError} (next : Unit → RunResult)
    (h : r.error = some e) : andThenRun r next = r := by
  unfold andThenRun; rw [h]

theorem andThenRun_none {r : RunResult} (next : Unit → RunResult)
    (h : r.error = none) :
    andThenRun r next = ⟨r.trace ++ (next ()).trace, (next ()).error⟩ := by
  unfold andThenRun; rw [h]

theorem andThenRun_const_some {r r2 : RunResult} {e : OrchError}
    (h : r.error = some e) : andThenRun r (fun _ => r2) = r := by
  unfold andThenRun; rw [h]

theorem andThenRun_const_none {r r2 : RunResult} (h : r.error = none) :
    andThenRun r (fun _ => r2) = ⟨r.trace ++ r2.trace, r2.error⟩ := by
  unfold andThenRun; rw [h]

theorem mem_stepA_trace {gen : Invocation → Bool} {ef : Bool} {graph profile : String}
    {fs : FS} {e : Event} (h : e ∈ (stepA gen ef graph profile fs).trace) :
    e = Event.log "Recreating Elias-Fano indexes on adjacency lists" ∨
    e = Event.run (Invocation.indexEf graph) profile := by
  rcases stepA_cases gen ef graph profile fs with hA | hA <;> rw [hA] at h
  · simp at h
  · simp at h
    tauto

theorem mem_stepB_trace {gen : Invocation → Bool} {ef : Bool} {graph profile : String}
    {fs : FS} {e : Event} (h : e ∈ (stepB gen ef graph profile fs).trace) :
    e = Event.readSidecar (graph ++ ".nodes.count.txt") ∨
    e = Event.log "Recreating Elias-Fano indexes on arc labels" ∨
    ∃ contents, fs.nodesCount = some contents ∧
      e = Event.run (Invocation.labelsEf (graph ++ "-labelled") (pyStrip contents)) profile := by
  rcases stepB_cases gen ef graph profile fs with hB | hB | ⟨c, hc, hB⟩ <;> rw [hB] at h <;>
    simp at h
  rcases h with h | h | h
  · tauto
  · tauto
  · exact Or.inr (Or.inr ⟨c, hc, h⟩)

theorem mem_stepC_trace {gen : Invocation → Bool} {force : Bool} {graph profile : String}
    {fs : FS} {e : Event} (h : e ∈ (stepC gen force graph profile fs).trace) :
    e = Event.log "Creating node2type.bin" ∨
    (fs.node2typeExists = true ∧ e = Event.unlink (graph ++ ".node2type.bin")) ∨
    e = Event.run (Invocation.node2type graph) profile := by
  rcases stepC_cases gen force graph profile fs with hC | hC <;> rw [hC] at h
  · simp at h
  · cases hn : fs.node2typeExists <;> rw [hn] at h <;> simp at h <;> tauto

theorem reindex_cases (gen : Invocation → Bool) (force ef : Bool) (graph : String)
    (profile : Option String) (fs : FS) :
    (reindex gen force ef graph profile fs =
        stepA gen (effectiveEf ef force) graph (resolveProfile profile) fs ∧
      (stepA gen (effectiveEf ef force) graph (resolveProfile profile) fs).error.isSome = true) ∨
    ((stepA gen (effectiveEf ef force) graph (resolveProfile profile) fs).error = none ∧
      (stepB gen (effectiveEf ef force) graph (resolveProfile profile) fs).error.isSome = true ∧
      reindex gen force ef graph profile fs =
        ⟨(stepA gen (effectiveEf ef force) graph (resolveProfile profile) fs).trace ++
           (stepB gen (effectiveEf ef force) graph (resolveProfile profile) fs).trace,
         (stepB gen (effectiveEf ef force) graph (resolveProfile profile) fs).error⟩) ∨
    ((stepA gen (effectiveEf ef force) graph (resolveProfile profile) fs).error = none ∧
      (stepB gen (effectiveEf ef force) graph (resolveProfile profile) fs).error = none ∧
      reindex gen force ef graph profile fs =
        ⟨(stepA gen (effectiveEf ef force) graph (resolveProfile profile) fs).trace ++
           ((stepB gen (effectiveEf ef force) graph (resolveProfile profile) fs).trace ++
             (stepC gen force graph (resolveProfile profile) fs).trace),
         (stepC gen force graph (resolveProfile profile) fs).error⟩) := by
  cases hA : (stepA gen (effectiveEf ef force) graph (resolveProfile profile) fs).error with
  | some eA =>
    refine Or.inl ⟨?_, by simp⟩
    rw [reindex_eq]
    exact andThenRun_some _ hA
  | none =>
    cases hB : (stepB gen (effectiveEf ef force) graph (resolveProfile profile) fs).error with
    | some eB =>
      refine Or.inr (Or.inl ⟨rfl, by simp, ?_⟩)
      simp only [reindex_eq, andThenRun_const_none hA, andThenRun_const_some hB, hB]
    | none =>
      refine Or.inr (Or.inr ⟨rfl, rfl, ?_⟩)
      simp only [reindex_eq, andThenRun_const_none hA, andThenRun_const_none hB]

theorem mem_reindex_trace {gen : Invocation → Bool} {force ef : Bool} {graph : String}
    {profile : Option String} {fs : FS} {e : Event}
    (h : e ∈ (reindex gen force ef graph profile fs).trace) :
    e ∈ (stepA gen (effectiveEf ef force) graph (resolveProfile profile) fs).trace ∨
    e ∈ (stepB gen (effectiveEf ef force) graph (resolveProfile profile) fs).trace ∨
    e ∈ (stepC gen force graph (resolveProfile profile) fs).trace := by
  rcases reindex_cases gen force ef graph profile fs with ⟨hr, _⟩ | ⟨_, _, hr⟩ | ⟨_, _, hr⟩ <;>
    rw [hr] at h
  · exact Or.inl h
  · rcases List.mem_append.mp h with h | h
    · exact Or.inl h
    · exact Or.inr (Or.inl h)
  · rcases List.mem_append.mp h with h | h
    · exact Or.inl h
    · exact Or.inr (List.mem_append.mp h)

theorem stepA_error_cases (gen : Invocation → Bool) (ef : Bool) (graph profile : String)
    (fs : FS) :
    (stepA gen ef graph profile fs).error = none ∨
    ((stepA gen ef graph profile fs).error =
        some (OrchError.generationFailure (Invocation.indexEf graph)) ∧
      gen (Invocation.indexEf graph) = false) := by
  rcases stepA_cases gen ef graph profile fs with hA | hA <;> rw [hA]
  · exact Or.inl rfl
  · cases hg : gen (Invocation.indexEf graph) <;> simp [hg]

theorem stepB_error_cases (gen : Invocation → Bool) (ef : Bool) (graph profile : String)
    (fs : FS) :
    (stepB gen ef graph profile fs).error = none ∨
    (stepB gen ef graph profile fs).error =
      some (OrchError.dataUnavailable (graph ++ ".nodes.count.txt")) ∨
    ∃ contents, fs.nodesCount = some contents ∧
      (stepB gen ef graph profile fs).error =
        some (OrchError.generationFailure
          (Invocation.labelsEf (graph ++ "-labelled") (pyStrip contents))) ∧
      gen (Invocation.labelsEf (graph ++ "-labelled") (pyStrip contents)) = false := by
  rcases stepB_cases gen ef graph profile fs with hB | hB | ⟨c, hc, hB⟩ <;> rw [hB]
  · exact Or.inl rfl
  · exact Or.inr (Or.inl rfl)
  · cases hg : gen (Invocation.labelsEf (graph ++ "-labelled") (pyStrip c))
    · exact Or.inr (Or.inr ⟨c, hc, by simp [hg], hg⟩)
    · exact Or.inl (by simp [hg])

theorem stepC_error_cases (gen : Invocation → Bool) (force : Bool) (graph profile : String)
    (fs : FS) :
    (stepC gen force graph profile fs).error = none ∨
    ((stepC gen force graph profile fs).error =
        some (OrchError.generationFailure (Invocation.node2type graph)) ∧
      gen (Invocation.node2type graph) = false) := by
  rcases stepC_cases gen force graph profile fs with hC | hC <;> rw [hC]
  · exact Or.inl rfl
  · cases hg : gen (Invocation.node2type graph) <;> simp [hg]

theorem stepA_run_form (gen : Invocation → Bool) (ef : Bool) (graph profile : String)
    (fs : FS) (h : (ef || !fs.efExists) = true) :
    stepA gen ef graph profile fs =
      ⟨[Event.log "Recreating Elias-Fano indexes on adjacency lists",
        Event.run (Invocation.indexEf graph) profile],
       if gen (Invocation.indexEf graph) then none
       else some (OrchError.generationFailure (Invocation.indexEf graph))⟩ := by
  unfold stepA runGenerator; simp [h]

theorem stepB_run_form (gen : Invocation → Bool) (ef : Bool) (graph profile : String)
    (fs : FS) (contents : String) (h : (ef || !fs.labelledEfExists) = true)
    (hc : fs.nodesCount = some contents) :
    stepB gen ef graph profile fs =
      ⟨[Event.readSidecar (graph ++ ".nodes.count.txt"),
        Event.log "Recreating Elias-Fano indexes on arc labels",
        Event.run (Invocation.labelsEf (graph ++ "-labelled") (pyStrip contents)) profile],
       if gen (Invocation.labelsEf (graph ++ "-labelled") (pyStrip contents)) then none
       else some (OrchError.generationFailure
          (Invocation.labelsEf (graph ++ "-labelled") (pyStrip contents)))⟩ := by
  unfold stepB runGenerator; simp [h, hc]

theorem stepC_run_form (gen : Invocation → Bool) (force : Bool) (graph profile : String)
    (fs : FS) (h : (force || !fs.node2typeExists) = true) :
    stepC gen force graph profile fs =
      ⟨[Event.log "Creating node2type.bin"] ++
        (if fs.node2typeExists then [Event.unlink (graph ++ ".node2type.bin")] else []) ++
        [Event.run (Invocation.node2type graph) profile],
       if gen (Invocation.node2type graph) then none
       else some (OrchError.generationFailure (Invocation.node2type graph))⟩ := by
  unfold stepC runGenerator; simp [h]

theorem eventStep_stepA {gen : Invocation → Bool} {ef : Bool} {graph profile : String}
    {fs : FS} : ∀ e ∈ (stepA gen ef graph profile fs).trace, eventStep e = 0 := by
  intro e he
  rcases mem_stepA_trace he with h | h <;> subst h
  · decide
  · rfl

theorem eventStep_stepB {gen : Invocation → Bool} {ef : Bool} {graph profile : String}
    {fs : FS} : ∀ e ∈ (stepB gen ef graph profile fs).trace, eventStep e = 1 := by
  intro e he
  rcases mem_stepB_trace he with h | h | ⟨c, _, h⟩ <;> subst h
  · rfl
  · decide
  · rfl

theorem eventStep_stepC {gen : Invocation → Bool} {force : Bool} {graph profile : String}
    {fs : FS} : ∀ e ∈ (stepC gen force graph profile fs).trace, eventStep e = 2 := by
  intro e he
  rcases mem_stepC_trace he with h | ⟨_, h⟩ | h <;> subst h
  · decide
  · rfl
  · rfl

/-! ### Claims -/

/-- C4: if all three artifacts (`<prefix>.ef`, `<prefix>-labelled.ef`,
`<prefix>.node2type.bin`) exist and `force` and `ef` are both false, the run
produces an empty event trace (zero generator invocations, no logging, no
deletion, no sidecar read) and no error: a second run after a successful run
is a no-op. -/
theorem converged_state_noop (gen : Invocation → Bool) (graph : String)
    (profile : Option String) (fs : FS) (hef : fs.efExists = true)
    (hlab : fs.labelledEfExists = true) (hn2t : fs.node2typeExists = true) :
    reindex gen false false graph profile fs = ⟨[], none⟩ := by
  rw [reindex_eq,
    stepA_skip gen (effectiveEf false false) graph (resolveProfile profile) fs
      (by simp [effectiveEf, hef]),
    stepB_skip gen (effectiveEf false false) graph (resolveProfile profile) fs
      (by simp [effectiveEf, hlab]),
    stepC_skip gen false graph (resolveProfile profile) fs (by simp [hn2t])]
  rfl

/-- C4 witness: with all artifacts of prefix "g" present and both flags
false, the orchestrator does nothing. -/
theorem converged_state_noop_witness :
    reindex (fun _ => true) false false "g" none ⟨true, true, some "5", true⟩ = ⟨[], none⟩ :=
  converged_state_noop (fun _ => true) "g" none ⟨true, true, some "5", true⟩ rfl rfl rfl

/-- C5: when `<prefix>.node2type.bin` exists and `force` is false, Step C is
skipped no matter what `ef` is (in particular for `ef = true`): the node-type
generator is never invoked, no file is unlinked, and Step C's log line is not
emitted.  Step C is gated only on `force` or absence, never on the `ef`
flag. -/
theorem ef_flag_skips_node2type (gen : Invocation → Bool) (ef : Bool)
    (graph : String) (profile : Option String) (fs : FS)
    (hn2t : fs.node2typeExists = true) :
    (∀ p, Event.run (Invocation.node2type graph) p ∉
        (reindex gen false ef graph profile fs).trace) ∧
    (∀ q, Event.unlink q ∉ (reindex gen false ef graph profile fs).trace) ∧
    Event.log "Creating node2type.bin" ∉ (reindex gen false ef graph profile fs).trace := by
  have hC : stepC gen false graph (resolveProfile profile) fs = ⟨[], none⟩ :=
    stepC_skip gen false graph (resolveProfile profile) fs (by simp [hn2t])
  refine ⟨fun p hp => ?_, fun q hq => ?_, fun hl => ?_⟩
  · rcases mem_reindex_trace hp with h | h | h
    · rcases mem_stepA_trace h with h | h <;> simp at h
    · rcases mem_stepB_trace h with h | h | ⟨c, _, h⟩ <;> simp at h
    · rw [hC] at h; simp at h
  · rcases mem_reindex_trace hq with h | h | h
    · rcases mem_stepA_trace h with h | h <;> simp at h
    · rcases mem_stepB_trace h with h | h | ⟨c, _, h⟩ <;> simp at h
    · rw [hC] at h; simp at h
  · rcases mem_reindex_trace hl with h | h | h
    · rcases mem_stepA_trace h with h | h <;> simp at h
    · rcases mem_stepB_trace h with h | h | ⟨c, _, h⟩ <;> simp at h
    · rw [hC] at h; simp at h

/-- C5 witness: prefix "g", node2type present, `ef = true`, `force = false`:
Step C is skipped. -/
theorem ef_flag_skips_node2type_witness :
    (∀ p, Event.run (Invocation.node2type "g") p ∉
        (reindex (fun _ => true) false true "g" none ⟨true, true, some "9", true⟩).trace) ∧
    (∀ q, Event.unlink q ∉
        (reindex (fun _ => true) false true "g" none ⟨true, true, some "9", true⟩).trace) ∧
    Event.log "Creating node2type.bin" ∉
      (reindex (fun _ => true) false true "g" none ⟨true, true, some "9", true⟩).trace :=
  ef_flag_skips_node2type (fun _ => true) true "g" none ⟨true, true, some "9", true⟩ rfl

theorem reindex_run_events {gen : Invocation → Bool} {force ef : Bool} {graph : String}
    {profile : Option String} {fs : FS} {inv : Invocation} {p : String}
    (h : Event.run inv p ∈ (reindex gen force ef graph profile fs).trace) :
    p = resolveProfile profile ∧
    (inv = Invocation.indexEf graph ∨
     (∃ c, fs.nodesCount = some c ∧
        inv = Invocation.labelsEf (graph ++ "-labelled") (pyStrip c)) ∨
     inv = Invocation.node2type graph) := by
  rcases mem_reindex_trace h with h | h | h
  · rcases mem_stepA_trace h with h | h
    · simp at h
    · simp at h
      exact ⟨h.2, Or.inl h.1⟩
  · rcases mem_stepB_trace h with h | h | ⟨c, hc, h⟩
    · simp at h
    · simp at h
    · simp at h
      exact ⟨h.2, Or.inr (Or.inl ⟨c, hc, h.1⟩)⟩
  · rcases mem_stepC_trace h with h | ⟨_, h⟩ | h
    · simp at h
    · simp at h
    · simp at h
      exact ⟨h.2, Or.inr (Or.inr h.1)⟩

/-- C7: when the resolved configuration lacks the top-level "graph" stanza,
the CLI fails with the configuration error raised in `graph_cli_group`
(`script.py` lines 51-54).  The result is a bare `Except.error` that carries
no run at all — it does not depend on the filesystem snapshot, so no
artifact existence check happens and none of Steps A, B, C executes. -/
theorem missing_graph_stanza_fails_fast (configFile : String) (conf : Conf)
    (profileOpt : Option String) (gen : Invocation → Bool) (force ef : Bool)
    (graph : String) (fs : FS) (h : conf.hasGraphStanza = false) :
    runCli configFile conf profileOpt gen force ef graph fs =
      Except.error (CliError.configurationError
        ("no \"graph\" stanza found in configuration file " ++ configFile)) := by
  unfold runCli graph_cli_group
  simp [h]

/-- C7 witness: a configuration without the "graph" stanza makes the CLI
fail with the configuration error. -/
theorem missing_graph_stanza_fails_fast_witness :
    runCli "conf.yml" ⟨false, none⟩ none (fun _ => true) true true "g"
        ⟨false, false, none, false⟩ =
      Except.error (CliError.configurationError
        ("no \"graph\" stanza found in configuration file " ++ "conf.yml")) :=
  missing_graph_stanza_fails_fast "conf.yml" ⟨false, none⟩ none (fun _ => true)
    true true "g" ⟨false, false, none, false⟩ rfl

/-- C8: whenever the labelled-index generator is invoked, the target it
receives is exactly `<prefix>-labelled` and the node count it receives is
exactly the contents of `<prefix>.nodes.count.txt` with leading and trailing
whitespace stripped, passed through as an opaque string (the orchestrator
performs no numeric validation or conversion — `Invocation.labelsEf` carries
the count as a `String`, and the theorem restricts its value to nothing
beyond `pyStrip` of the sidecar contents, numeric or not). -/
theorem node_count_passed_verbatim (gen : Invocation → Bool) (force ef : Bool)
    (graph : String) (profile : Option String) (fs : FS) (s : String)
    (hread : fs.nodesCount = some s) :
    ∀ t c p, Event.run (Invocation.labelsEf t c) p ∈
        (reindex gen force ef graph profile fs).trace →
      t = graph ++ "-labelled" ∧ c = pyStrip s ∧ p = resolveProfile profile := by
  intro t c p h
  rcases reindex_run_events h with ⟨hp, h1 | ⟨c0, hc0, h1⟩ | h1⟩
  · simp at h1
  · rw [hread] at hc0
    injection hc0 with hc0
    subst hc0
    simp at h1
    exact ⟨h1.1, h1.2, hp⟩
  · simp at h1

/-- C8 witness: sidecar contents "  not-a-number\n" (not numeric at all) are
forwarded stripped and unvalidated: the labelled-index invocation of a
concrete run carries exactly the stripped sidecar string. -/
theorem node_count_passed_verbatim_witness :
    Event.run (Invocation.labelsEf "g-labelled" "not-a-number") "release" ∈
      (reindex (fun _ => true) false true "g" none
        ⟨true, true, some "  not-a-number\n", true⟩).trace ∧
    ("g-labelled" = "g" ++ "-labelled" ∧ "not-a-number" = pyStrip "  not-a-number\n" ∧
      "release" = resolveProfile none) :=
  ⟨by decide,
   node_count_passed_verbatim (fun _ => true) false true "g" none
     ⟨true, true, some "  not-a-number\n", true⟩ "  not-a-number\n" rfl
     "g-labelled" "not-a-number" "release" (by decide)⟩

/-- C9: if no profile is specified in the configuration (`conf.profile =
none`) nor on the command line (`--profile` absent), `reindex` sets the
profile to "release" (`script.py` lines 89-90) before invoking anything, and
every generator invocation of the run carries that profile. -/
theorem profile_defaults_to_release (configFile : String) (conf : Conf)
    (gen : Invocation → Bool) (force ef : Bool) (graph : String) (fs : FS)
    (r : RunResult) (hconf : conf.profile = none)
    (hok : runCli configFile conf none gen force ef graph fs = Except.ok r) :
    ∀ inv p, Event.run inv p ∈ r.trace → p = "release" := by
  intro inv p hp
  unfold runCli graph_cli_group at hok
  cases hg : conf.hasGraphStanza
  · rw [hg] at hok; simp at hok
  · rw [hg] at hok
    simp [hconf] at hok
    subst hok
    exact (reindex_run_events hp).1

/-- C9 witness: with no profile in the config and none on the command line,
the forward-index invocation of a concrete run through the CLI carries the
"release" profile. -/
theorem profile_defaults_to_release_witness :
    Event.run (Invocation.indexEf "g") "release" ∈
      (reindex (fun _ => true) false false "g" none
        ⟨false, false, some "3", false⟩).trace ∧
    "release" = "release" :=
  ⟨by decide,
   profile_defaults_to_release "conf.yml" ⟨true, none⟩ (fun _ => true) false false "g"
     ⟨false, false, some "3", false⟩
     (reindex (fun _ => true) false false "g" none ⟨false, false, some "3", false⟩)
     rfl rfl (Invocation.indexEf "g") "release" (by decide)⟩

/-- C10: for every combination of flags, prefix, filesystem state and
generator behaviour, every generator invocation is one of: the forward EF
index on `<prefix>`, the labelled EF index on `<prefix>-labelled`, or the
node-type generator on `<prefix>`.  In particular the forward-index
generator is never invoked on `<prefix>-transposed`: the transposed-graph
call (`script.py` line 97) is commented out and is dead code. -/
theorem no_transposed_invocation (gen : Invocation → Bool) (force ef : Bool)
    (graph : String) (profile : Option String) (fs : FS) :
    (∀ inv p, Event.run inv p ∈ (reindex gen force ef graph profile fs).trace →
      inv = Invocation.indexEf graph ∨
      (∃ c, inv = Invocation.labelsEf (graph ++ "-labelled") c) ∨
      inv = Invocation.node2type graph) ∧
    (∀ p, Event.run (Invocation.indexEf (graph ++ "-transposed")) p ∉
      (reindex gen force ef graph profile fs).trace) := by
  have hmain : ∀ inv p, Event.run inv p ∈ (reindex gen force ef graph profile fs).trace →
      inv = Invocation.indexEf graph ∨
      (∃ c, inv = Invocation.labelsEf (graph ++ "-labelled") c) ∨
      inv = Invocation.node2type graph := by
    intro inv p h
    rcases (reindex_run_events h).2 with h1 | ⟨c, _, h1⟩ | h1
    · exact Or.inl h1
    · exact Or.inr (Or.inl ⟨pyStrip c, h1⟩)
    · exact Or.inr (Or.inr h1)
  refine ⟨hmain, fun p hp => ?_⟩
  rcases hmain _ _ hp with h | ⟨c, h⟩ | h
  · simp only [Invocation.indexEf.injEq] at h
    have hl := congrArg String.length h
    rw [String.length_append] at hl
    have h11 : ("-transposed" : String).length = 11 := rfl
    omega
  · simp at h
  · simp at h

/-- C3: whenever Step B must run (`force` or `ef` set, or
`<prefix>-labelled.ef` absent) and the node-count sidecar is missing or
unreadable, the run aborts with an error, the labelled-index generator
process is never spawned (so no default or inferred count can be used), and
— provided Step A's generator did not itself crash first — the error is
precisely the data-unavailable error for `<prefix>.nodes.count.txt`, raised
before the labelled-index generator is invoked. -/
theorem sidecar_missing_aborts_labelled (gen : Invocation → Bool) (force ef : Bool)
    (graph : String) (profile : Option String) (fs : FS)
    (hcond : force = true ∨ ef = true ∨ fs.labelledEfExists = false)
    (hmiss : fs.nodesCount = none) :
    (reindex gen force ef graph profile fs).error.isSome = true ∧
    (∀ t c p, Event.run (Invocation.labelsEf t c) p ∉
      (reindex gen force ef graph profile fs).trace) ∧
    (gen (Invocation.indexEf graph) = true →
      (reindex gen force ef graph profile fs).error =
        some (OrchError.dataUnavailable (graph ++ ".nodes.count.txt"))) := by
  have hBcond : (effectiveEf ef force || !fs.labelledEfExists) = true := by
    rcases hcond with h | h | h <;> simp [effectiveEf, h]
  have hB : stepB gen (effectiveEf ef force) graph (resolveProfile profile) fs =
      ⟨[], some (OrchError.dataUnavailable (graph ++ ".nodes.count.txt"))⟩ :=
    stepB_sidecar_missing gen (effectiveEf ef force) graph (resolveProfile profile) fs
      hBcond hmiss
  refine ⟨?_, ?_, ?_⟩
  · rcases reindex_cases gen force ef graph profile fs with ⟨hr, herr⟩ |
      ⟨_, hBerr, hr⟩ | ⟨_, hBnone, _⟩
    · rw [hr]; exact herr
    · rw [hr]; rw [hB]; rfl
    · rw [hB] at hBnone; simp at hBnone
  · intro t c p hp
    rcases (reindex_run_events hp).2 with h1 | ⟨c0, hc0, _⟩ | h1
    · simp at h1
    · rw [hmiss] at hc0; simp at hc0
    · simp at h1
  · intro hgen
    rcases reindex_cases gen force ef graph profile fs with ⟨hr, herr⟩ |
      ⟨_, _, hr⟩ | ⟨_, hBnone, _⟩
    · rcases stepA_error_cases gen (effectiveEf ef force) graph
        (resolveProfile profile) fs with h0 | ⟨_, hg0⟩
      · rw [h0] at herr; simp at herr
      · rw [hg0] at hgen; simp at hgen
    · rw [hr, hB]
    · rw [hB] at hBnone; simp at hBnone

/-- C3 witness: the spec's scenario — prefix "g", sidecar absent,
"g-labelled.ef" absent, `force = false`, `ef = true`, generators well
behaved: the run errors with the data-unavailable error and spawns no
labelled-index generator. -/
theorem sidecar_missing_aborts_labelled_witness :
    (reindex (fun _ => true) false true "g" none
        ⟨true, false, none, true⟩).error.isSome = true ∧
    (∀ t c p, Event.run (Invocation.labelsEf t c) p ∉
      (reindex (fun _ => true) false true "g" none ⟨true, false, none, true⟩).trace) ∧
    ((fun _ => true : Invocation → Bool) (Invocation.indexEf "g") = true →
      (reindex (fun _ => true) false true "g" none ⟨true, false, none, true⟩).error =
        some (OrchError.dataUnavailable ("g" ++ ".nodes.count.txt"))) :=
  sidecar_missing_aborts_labelled (fun _ => true) false true "g" none
    ⟨true, false, none, true⟩ (Or.inr (Or.inl rfl)) rfl

/-- C1 counterexample: prefix "g" with a stale "g.ef" present
(`efExists = true`) and `force = true`, so the forward EF index is rebuilt
while a stale copy exists on disk; yet the orchestrator invokes the
forward-index generator without ever removing "g.ef" (or "g-labelled.ef"):
only Step C deletes its artifact, Steps A and B do not. -/
theorem stale_ef_not_removed_counterexample :
    Event.run (Invocation.indexEf "g") "release" ∈
      (reindex (fun _ => true) true false "g" none ⟨true, true, some "7", true⟩).trace ∧
    Event.unlink "g.ef" ∉
      (reindex (fun _ => true) true false "g" none ⟨true, true, some "7", true⟩).trace ∧
    Event.unlink "g-labelled.ef" ∉
      (reindex (fun _ => true) true false "g" none ⟨true, true, some "7", true⟩).trace ∧
    Event.run (Invocation.labelsEf "g-labelled" "7") "release" ∈
      (reindex (fun _ => true) true false "g" none ⟨true, true, some "7", true⟩).trace := by
  decide

/-- C1 amended: only the node-type artifact is removed before its generator
runs.  The only path the orchestrator ever unlinks is
`<prefix>.node2type.bin`, and when the node-type generator is invoked while
a stale copy exists, that unlink immediately precedes the invocation; the
two EF artifacts are regenerated with no prior removal. -/
theorem unlink_only_node2type (gen : Invocation → Bool) (force ef : Bool)
    (graph : String) (profile : Option String) (fs : FS)
    (hn2t : fs.node2typeExists = true) :
    (∀ q, Event.unlink q ∈ (reindex gen force ef graph profile fs).trace →
      q = graph ++ ".node2type.bin") ∧
    (∀ p, Event.run (Invocation.node2type graph) p ∈
        (reindex gen force ef graph profile fs).trace →
      ∃ pre post, (reindex gen force ef graph profile fs).trace =
        pre ++ [Event.unlink (graph ++ ".node2type.bin"),
                Event.run (Invocation.node2type graph) p] ++ post) := by
  constructor
  · intro q hq
    rcases mem_reindex_trace hq with h | h | h
    · rcases mem_stepA_trace h with h | h <;> simp at h
    · rcases mem_stepB_trace h with h | h | ⟨c, _, h⟩ <;> simp at h
    · rcases mem_stepC_trace h with h | ⟨_, h⟩ | h <;> simp at h
      exact h
  · intro p hp
    rcases reindex_cases gen force ef graph profile fs with ⟨hr, _⟩ |
      ⟨_, _, hr⟩ | ⟨_, _, hr⟩
    · rw [hr] at hp
      rcases mem_stepA_trace hp with h | h <;> simp at h
    · rw [hr] at hp
      simp only [List.mem_append] at hp
      rcases hp with h | h
      · rcases mem_stepA_trace h with h | h <;> simp at h
      · rcases mem_stepB_trace h with h | h | ⟨c, _, h⟩ <;> simp at h
    · rw [hr] at hp
      simp only [List.mem_append] at hp
      rcases hp with h | h | h
      · rcases mem_stepA_trace h with h | h <;> simp at h
      · rcases mem_stepB_trace h with h | h | ⟨c, _, h⟩ <;> simp at h
      · have hpprof : p = resolveProfile profile := by
          rcases mem_stepC_trace h with h1 | ⟨_, h1⟩ | h1 <;> simp at h1
          exact h1
        subst hpprof
        rcases stepC_cases gen force graph (resolveProfile profile) fs with hC | hC
        · rw [hC] at h; simp at h
        · rw [hr, hC]
          refine ⟨(stepA gen (effectiveEf ef force) graph (resolveProfile profile) fs).trace ++
            (stepB gen (effectiveEf ef force) graph (resolveProfile profile) fs).trace ++
            [Event.log "Creating node2type.bin"], [], ?_⟩
          simp [hn2t]

/-- C1 amended witness: a concrete forced run with all artifacts present:
every unlink targets "g.node2type.bin" and the node-type invocation is
immediately preceded by that unlink. -/
theorem unlink_only_node2type_witness :
    (∀ q, Event.unlink q ∈
        (reindex (fun _ => true) true false "g" none
          ⟨true, true, some "7", true⟩).trace →
      q = "g" ++ ".node2type.bin") ∧
    (∀ p, Event.run (Invocation.node2type "g") p ∈
        (reindex (fun _ => true) true false "g" none
          ⟨true, true, some "7", true⟩).trace →
      ∃ pre post, (reindex (fun _ => true) true false "g" none
          ⟨true, true, some "7", true⟩).trace =
        pre ++ [Event.unlink ("g" ++ ".node2type.bin"),
                Event.run (Invocation.node2type "g") p] ++ post) :=
  unlink_only_node2type (fun _ => true) true false "g" none
    ⟨true, true, some "7", true⟩ rfl

/-- C2 counterexample: with `force = true` but the node-count sidecar
missing, the run aborts with the data-unavailable error after Step A: the
trace contains only Step A's events, so neither the labelled-index generator
nor the node-type generator is invoked — "all three generators are invoked
for every filesystem state under force" is false. -/
theorem force_missing_sidecar_counterexample :
    (reindex (fun _ => true) true false "g" none ⟨false, false, none, false⟩).trace =
      [Event.log "Recreating Elias-Fano indexes on adjacency lists",
       Event.run (Invocation.indexEf "g") "release"] ∧
    (reindex (fun _ => true) true false "g" none ⟨false, false, none, false⟩).error =
      some (OrchError.dataUnavailable "g.nodes.count.txt") ∧
    (∀ e ∈ (reindex (fun _ => true) true false "g" none
        ⟨false, false, none, false⟩).trace, eventStep e = 0) := by
  decide

/-- C2 amended: with `force = true`, the effective EF-rebuild decision
(`ef or force`) is true, and provided the run completes without error (the
sidecar was readable and no generator crashed), all three generators are
invoked regardless of prior artifact existence. -/
theorem force_invokes_all_generators (gen : Invocation → Bool) (ef : Bool)
    (graph : String) (profile : Option String) (fs : FS)
    (hok : (reindex gen true ef graph profile fs).error = none) :
    effectiveEf ef true = true ∧
    Event.run (Invocation.indexEf graph) (resolveProfile profile) ∈
      (reindex gen true ef graph profile fs).trace ∧
    (∃ c, fs.nodesCount = some c ∧
      Event.run (Invocation.labelsEf (graph ++ "-labelled") (pyStrip c))
          (resolveProfile profile) ∈
        (reindex gen true ef graph profile fs).trace) ∧
    Event.run (Invocation.node2type graph) (resolveProfile profile) ∈
      (reindex gen true ef graph profile fs).trace := by
  have heff : effectiveEf ef true = true := by simp [effectiveEf]
  rcases reindex_cases gen true ef graph profile fs with ⟨hr, herr⟩ |
    ⟨_, hBerr, hr⟩ | ⟨hA, hB, hr⟩
  · rw [hr] at hok
    rw [hok] at herr
    simp at herr
  · rw [hr] at hok
    simp at hok
    rw [hok] at hBerr
    simp at hBerr
  · have hAtrace : (stepA gen (effectiveEf ef true) graph (resolveProfile profile) fs).trace =
        [Event.log "Recreating Elias-Fano indexes on adjacency lists",
         Event.run (Invocation.indexEf graph) (resolveProfile profile)] := by
      rw [stepA_run_form gen (effectiveEf ef true) graph (resolveProfile profile) fs
        (by simp [heff])]
    rcases hfs : fs.nodesCount with _ | c
    · exact absurd hB (by
        rw [stepB_sidecar_missing gen (effectiveEf ef true) graph
          (resolveProfile profile) fs (by simp [heff]) hfs]
        simp)
    · have hBtrace : (stepB gen (effectiveEf ef true) graph (resolveProfile profile) fs).trace =
          [Event.readSidecar (graph ++ ".nodes.count.txt"),
           Event.log "Recreating Elias-Fano indexes on arc labels",
           Event.run (Invocation.labelsEf (graph ++ "-labelled") (pyStrip c))
             (resolveProfile profile)] := by
        rw [stepB_run_form gen (effectiveEf ef true) graph (resolveProfile profile) fs c
          (by simp [heff]) hfs]
      have hCtrace : (stepC gen true graph (resolveProfile profile) fs).trace =
          [Event.log "Creating node2type.bin"] ++
            (if fs.node2typeExists then [Event.unlink (graph ++ ".node2type.bin")] else []) ++
            [Event.run (Invocation.node2type graph) (resolveProfile profile)] := by
        rw [stepC_run_form gen true graph (resolveProfile profile) fs (by simp)]
      refine ⟨heff, ?_, ⟨c, rfl, ?_⟩, ?_⟩ <;> rw [hr] <;>
        simp only [List.mem_append, hAtrace, hBtrace, hCtrace] <;> simp

/-- C2 amended witness: a concrete forced run with all three artifacts
present and a readable sidecar invokes all three generators. -/
theorem force_invokes_all_generators_witness :
    effectiveEf false true = true ∧
    Event.run (Invocation.indexEf "g") (resolveProfile none) ∈
      (reindex (fun _ => true) true false "g" none ⟨true, true, some "7", true⟩).trace ∧
    (∃ c, (⟨true, true, some "7", true⟩ : FS).nodesCount = some c ∧
      Event.run (Invocation.labelsEf ("g" ++ "-labelled") (pyStrip c))
          (resolveProfile none) ∈
        (reindex (fun _ => true) true false "g" none ⟨true, true, some "7", true⟩).trace) ∧
    Event.run (Invocation.node2type "g") (resolveProfile none) ∈
      (reindex (fun _ => true) true false "g" none ⟨true, true, some "7", true⟩).trace :=
  force_invokes_all_generators (fun _ => true) false "g" none
    ⟨true, true, some "7", true⟩ (by decide)

theorem pairwise_le_eventStep {l : List Event} {k : Nat}
    (h : ∀ e ∈ l, eventStep e = k) :
    List.Pairwise (fun a b => eventStep a ≤ eventStep b) l := by
  induction l with
  | nil => exact List.Pairwise.nil
  | cons x xs ih =>
    refine List.Pairwise.cons (fun y hy => ?_)
      (ih (fun e he => h e (List.mem_cons_of_mem x he)))
    rw [h x (List.mem_cons_self x xs), h y (List.mem_cons_of_mem x hy)]

/-- C6: the run is strictly sequential in the order Step A (forward EF),
Step B (labelled EF), Step C (node-type): the per-event step numbers along
the trace are monotone.  Moreover an error in an earlier step aborts the
later steps: if the run ends with Step A's generator failing, every trace
event belongs to Step A; if it ends with the sidecar data-unavailable error
or Step B's generator failing, every trace event belongs to Step A or Step B
— in particular Step C never runs after Step A or Step B has failed. -/
theorem steps_sequential_short_circuit (gen : Invocation → Bool) (force ef : Bool)
    (graph : String) (profile : Option String) (fs : FS) :
    List.Pairwise (fun a b => a ≤ b)
      ((reindex gen force ef graph profile fs).trace.map eventStep) ∧
    (∀ t, (reindex gen force ef graph profile fs).error =
        some (OrchError.generationFailure (Invocation.indexEf t)) →
      ∀ e ∈ (reindex gen force ef graph profile fs).trace, eventStep e = 0) ∧
    (∀ q, (reindex gen force ef graph profile fs).error =
        some (OrchError.dataUnavailable q) →
      ∀ e ∈ (reindex gen force ef graph profile fs).trace, eventStep e ≤ 1) ∧
    (∀ t c, (reindex gen force ef graph profile fs).error =
        some (OrchError.generationFailure (Invocation.labelsEf t c)) →
      ∀ e ∈ (reindex gen force ef graph profile fs).trace, eventStep e ≤ 1) := by
  rcases reindex_cases gen force ef graph profile fs with ⟨hr, herr⟩ |
    ⟨_, _, hr⟩ | ⟨_, _, hr⟩
  · rw [hr]
    refine ⟨List.pairwise_map.mpr (pairwise_le_eventStep eventStep_stepA),
      fun t _ e he => eventStep_stepA e he, fun q hq e he => ?_, fun t c hq e he => ?_⟩
    · rcases stepA_error_cases gen (effectiveEf ef force) graph
        (resolveProfile profile) fs with h0 | ⟨h0, _⟩ <;> rw [h0] at hq <;> simp at hq
    · rcases stepA_error_cases gen (effectiveEf ef force) graph
        (resolveProfile profile) fs with h0 | ⟨h0, _⟩ <;> rw [h0] at hq <;> simp at hq
  · rw [hr]
    refine ⟨?_, fun t hq e he => ?_, fun q hq e he => ?_, fun t c hq e he => ?_⟩
    · refine List.pairwise_map.mpr (List.pairwise_append.mpr
        ⟨pairwise_le_eventStep eventStep_stepA,
         pairwise_le_eventStep eventStep_stepB, fun a ha b hb => ?_⟩)
      rw [eventStep_stepA a ha, eventStep_stepB b hb]
      omega
    · rcases stepB_error_cases gen (effectiveEf ef force) graph
        (resolveProfile profile) fs with h0 | h0 | ⟨c0, _, h0, _⟩ <;>
        rw [h0] at hq <;> simp at hq
    · rcases List.mem_append.mp he with h | h
      · rw [eventStep_stepA e h]; omega
      · rw [eventStep_stepB e h]
    · rcases List.mem_append.mp he with h | h
      · rw [eventStep_stepA e h]; omega
      · rw [eventStep_stepB e h]
  · rw [hr]
    refine ⟨?_, fun t hq e he => ?_, fun q hq e he => ?_, fun t c hq e he => ?_⟩
    · refine List.pairwise_map.mpr (List.pairwise_append.mpr
        ⟨pairwise_le_eventStep eventStep_stepA, List.pairwise_append.mpr
          ⟨pairwise_le_eventStep eventStep_stepB,
           pairwise_le_eventStep eventStep_stepC, fun a ha b hb => ?_⟩,
         fun a ha b hb => ?_⟩)
      · rw [eventStep_stepB a ha, eventStep_stepC b hb]; omega
      · rcases List.mem_append.mp hb with h | h
        · rw [eventStep_stepA a ha, eventStep_stepB b h]; omega
        · rw [eventStep_stepA a ha, eventStep_stepC b h]; omega
    · rcases stepC_error_cases gen force graph (resolveProfile profile) fs with
        h0 | ⟨h0, _⟩ <;> rw [h0] at hq <;> simp at hq
    · rcases stepC_error_cases gen force graph (resolveProfile profile) fs with
        h0 | ⟨h0, _⟩ <;> rw [h0] at hq <;> simp at hq
    · rcases stepC_error_cases gen force graph (resolveProfile profile) fs with
        h0 | ⟨h0, _⟩ <;> rw [h0] at hq <;> simp at hq

/-- C6 witness: for a concrete run in which Step A succeeds and the sidecar
is missing, the instantiated ordering and short-circuit facts hold. -/
theorem steps_sequential_short_circuit_witness :
    List.Pairwise (fun a b => a ≤ b)
      ((reindex (fun _ => true) false true "g" none
        ⟨true, false, none, true⟩).trace.map eventStep) ∧
    (∀ t, (reindex (fun _ => true) false true "g" none
          ⟨true, false, none, true⟩).error =
        some (OrchError.generationFailure (Invocation.indexEf t)) →
      ∀ e ∈ (reindex (fun _ => true) false true "g" none
        ⟨true, false, none, true⟩).trace, eventStep e = 0) ∧
    (∀ q, (reindex (fun _ => true) false true "g" none
          ⟨true, false, none, true⟩).error =
        some (OrchError.dataUnavailable q) →
      ∀ e ∈ (reindex (fun _ => true) false true "g" none
        ⟨true, false, none, true⟩).trace, eventStep e ≤ 1) ∧
    (∀ t c, (reindex (fun _ => true) false true "g" none
          ⟨true, false, none, true⟩).error =
        some (OrchError.generationFailure (Invocation.labelsEf t c)) →
      ∀ e ∈ (reindex (fun _ => true) false true "g" none
        ⟨true, false, none, true⟩).trace, eventStep e ≤ 1) :=
  steps_sequential_short_circuit (fun _ => true) false true "g" none
    ⟨true, false, none, true⟩

/-- C10 witness: a concrete full-force run on prefix "g" never takes the
transposed-prefix invocation; the one forward-index invocation it does take
targets "g". -/
theorem no_transposed_invocation_witness :
    (∀ inv p, Event.run inv p ∈
        (reindex (fun _ => true) true false "g" none
          ⟨true, true, some "7", true⟩).trace →
      inv = Invocation.indexEf "g" ∨
      (∃ c, inv = Invocation.labelsEf ("g" ++ "-labelled") c) ∨
      inv = Invocation.node2type "g") ∧
    (∀ p, Event.run (Invocation.indexEf ("g" ++ "-transposed")) p ∉
      (reindex (fun _ => true) true false "g" none ⟨true, true, some "7", true⟩).trace) :=
  no_transposed_invocation (fun _ => true) true false "g" none ⟨true, true, some "7", true⟩
